import Mathlib

/-!
Verification of the `gas rm` deletion command of the tensorbay CLI
(`tensorbay/cli/rm.py` and `tensorbay/cli/utility.py`).

The command is embedded as a pure function from a remote-service
environment, a parsed locator, the raw locator string and the recursive
flag to a result record holding the ordered list of external-client calls
made, the lines printed to the error stream, and the termination outcome.

The locator data model (`tensorbay/cli/tbrn.py`) and the path filter
(`filter_data`) are imported by `rm.py` but their defining modules are not
part of the sources under review; those definitions are modelled from the
design document and are marked as such in their doc comments.
-/

namespace TensorbayRm

/-- Modelled from the spec: the closed enumeration of addressable resource
shapes of a TBRN locator (`TBRNType` lives in `tensorbay/cli/tbrn.py`, which
only appears here as an import of `rm.py`); the spec lists ROOT, DATASET,
SEGMENT, NORMAL_FILE and FUSION_FILE. -/
inductive TBRNType
  | ROOT
  | DATASET
  | SEGMENT
  | NORMAL_FILE
  | FUSION_FILE
deriving DecidableEq, Repr

/-- Modelled from the spec: the closed sum of version qualifiers of a
locator — no version, a positive draft number, or an opaque revision id. -/
inductive VersionInfo
  | noVersion
  | draft (number : Nat)
  | revision (rev : String)
deriving DecidableEq, Repr

/-- Modelled from the spec: the parsed, immutable resource locator
(`TBRN` of `tensorbay/cli/tbrn.py`): kind, dataset name, segment name,
file path within the segment, and version qualifier. -/
structure TBRN where
  type : TBRNType
  dataset_name : String
  segment_name : String
  remote_path : String
  version : VersionInfo
deriving DecidableEq, Repr

/-- The `is_draft` property of a locator: true exactly when the version
qualifier is the Draft case. -/
def TBRN.is_draft (info : TBRN) : Bool :=
  match info.version with
  | VersionInfo.draft _ => true
  | _ => false

/-- The `revision` property of a locator: the revision id when the version
qualifier is the Revision case, else none. -/
def TBRN.revision (info : TBRN) : Option String :=
  match info.version with
  | VersionInfo.revision r => some r
  | _ => none

/-- Whether a kind addresses a file inside a segment. -/
def TBRNType.isFileKind : TBRNType → Bool
  | TBRNType.NORMAL_FILE => true
  | TBRNType.FUSION_FILE => true
  | _ => false

/-- Whether a kind carries a meaningful segment name. -/
def TBRNType.hasSegmentName : TBRNType → Bool
  | TBRNType.SEGMENT => true
  | t => t.isFileKind

/-- Modelled from the spec: the canonical string form of a locator, per the
grammar `tb:<dataset>[:<segment>][/<path>][#<version>]`; Python's
`str(info)` in `rm.py` renders this form. -/
def TBRN.toTbrnString (info : TBRN) : String :=
  "tb:" ++ info.dataset_name
    ++ (if info.type.hasSegmentName then ":" ++ info.segment_name else "")
    ++ (if info.type.isFileKind then "/" ++ info.remote_path else "")
    ++ (match info.version with
        | VersionInfo.noVersion => ""
        | VersionInfo.draft n => "#" ++ toString n
        | VersionInfo.revision r => "#" ++ r)

/-- Python's `s.startswith(pre)`: `pre` is a literal prefix of the
sequence of code points of `s`. -/
def strStartsWith (s pre : String) : Bool :=
  pre.data.isPrefixOf s.data

/-- Python's `s.endswith(post)`: `post` is a literal suffix of the
sequence of code points of `s`. -/
def strEndsWith (s post : String) : Bool :=
  post.data.isSuffixOf s.data

/-- Modelled from the spec: `filter_data` is imported by `rm.py` from
`tensorbay/cli/utility.py` but absent from the sources under review.
Per the Path Filter contract: non-recursive resolution yields the
singleton of the requested path when it occurs verbatim in the listing and
is empty otherwise; recursive resolution keeps every listed path having
the requested path as a literal string prefix. -/
def filter_data (data_list : List String) (remote_path : String)
    (is_recursive : Bool) : List String :=
  if is_recursive then
    data_list.filter (fun path => strStartsWith path remote_path)
  else if data_list.contains remote_path then [remote_path] else []

/-- One call to the external dataset-service client, as observed by the
command; the constructors follow the client methods used by `rm.py` and
`utility.py`. -/
inductive ClientCall
  | getDataset (name : String) (is_fusion : Bool)
  | checkout_draft (draft_number : Nat)
  | checkout_revision (rev : String)
  | delete_segment (name : String)
  | get_segment (name : String)
  | listDataPaths (segment_name : String)
  | delete_data (segment_name : String) (paths : List String)
deriving DecidableEq, Repr

/-- The state of the remote service as far as the command can observe it:
which dataset names resolve, which of them are fusion datasets, and the
data paths listed for a segment name in the checked-out version. -/
structure RemoteEnv where
  dataset_exists : String → Bool
  is_fusion_dataset : String → Bool
  list_data_paths : String → List String

/-- Termination of one `rm` invocation: an exception escaping dataset
resolution, an explicit `sys.exit`, or a normal return. -/
inductive RmOutcome
  | resolutionFailure
  | exited (code : Nat)
  | success
deriving DecidableEq, Repr

/-- The observable behaviour of one `rm` invocation: external-client calls
in order, lines printed to the error stream, and the termination outcome. -/
structure RmResult where
  calls : List ClientCall
  errs : List String
  outcome : RmOutcome
deriving DecidableEq, Repr

/-- Client calls made by a successful `get_dataset_client` (utility.py):
resolve the dataset, then check out the draft named by the locator when
`info.is_draft`, else the revision when `info.revision` is not none. -/
def get_dataset_client_calls (info : TBRN) (is_fusion : Bool) :
    List ClientCall :=
  ClientCall.getDataset info.dataset_name is_fusion ::
    (if info.is_draft then
      match info.version with
      | VersionInfo.draft n => [ClientCall.checkout_draft n]
      | _ => []
    else
      match info.revision with
      | some r => [ClientCall.checkout_revision r]
      | none => [])

/-- Embedding of `_implement_rm` (rm.py). The dataset is resolved with
`is_fusion=False` before any validation; resolution fails when the name
does not resolve or names a fusion dataset (modelled from the spec: the
client's dataset resolution is polymorphic over the plain vs. fusion
dataset shape, and `utility.py` types the `is_fusion=False` resolution as
returning a plain dataset client). Then the guard chain of rm.py lines
22–39 runs in source order, and the file branch lists the segment's data
paths and filters them before the batched delete. -/
def implement_rm (env : RemoteEnv) (info : TBRN) (tbrn : String)
    (is_recursive : Bool) : RmResult :=
  if env.dataset_exists info.dataset_name = false
      ∨ env.is_fusion_dataset info.dataset_name = true then
    { calls := [ClientCall.getDataset info.dataset_name false],
      errs := [],
      outcome := RmOutcome.resolutionFailure }
  else if ¬ (info.type = TBRNType.SEGMENT ∨ info.type = TBRNType.NORMAL_FILE)
      then
    { calls := get_dataset_client_calls info false,
      errs := ["\"" ++ tbrn ++ "\" is an invalid path to remove"],
      outcome := RmOutcome.exited 1 }
  else if info.is_draft = false then
    { calls := get_dataset_client_calls info false,
      errs := ["To remove the data, \"" ++ info.toTbrnString
        ++ "\" must be in draft status, like \"" ++ info.toTbrnString
        ++ "#1\""],
      outcome := RmOutcome.exited 1 }
  else if info.type = TBRNType.SEGMENT then
    if is_recursive = false then
      { calls := get_dataset_client_calls info false,
        errs := ["Please use -r option to remove the whole segment"],
        outcome := RmOutcome.exited 1 }
    else
      { calls := get_dataset_client_calls info false
          ++ [ClientCall.delete_segment info.segment_name],
        errs := [],
        outcome := RmOutcome.success }
  else if strEndsWith info.remote_path "/" = true ∧ is_recursive = false then
    { calls := get_dataset_client_calls info false,
      errs := ["Please use -r option to remove recursively"],
      outcome := RmOutcome.exited 1 }
  else if filter_data (env.list_data_paths info.segment_name)
      info.remote_path is_recursive = [] then
    { calls := get_dataset_client_calls info false
        ++ [ClientCall.get_segment info.segment_name,
            ClientCall.listDataPaths info.segment_name],
      errs := [(if is_recursive then "No such file or directory \""
          else "No such file \"") ++ tbrn ++ "\" "],
      outcome := RmOutcome.exited 1 }
  else
    { calls := get_dataset_client_calls info false
        ++ [ClientCall.get_segment info.segment_name,
            ClientCall.listDataPaths info.segment_name,
            ClientCall.delete_data info.segment_name
              (filter_data (env.list_data_paths info.segment_name)
                info.remote_path is_recursive)],
      errs := [],
      outcome := RmOutcome.success }

/-- The rejection reasons of the authorization guard chain of
`_implement_rm`, in the vocabulary of the design document. -/
inductive RejectReason
  | invalidTargetKind
  | notInDraft
  | segmentRequiresRecursive
  | directoryRequiresRecursive
deriving DecidableEq, Repr

/-- The decision taken by the guard chain of `_implement_rm` (rm.py lines
22–39), transcribed condition for condition in source order: some
rejection reason, or none when the request proceeds to execution. -/
def rejection_of (info : TBRN) (is_recursive : Bool) : Option RejectReason :=
  if ¬ (info.type = TBRNType.SEGMENT ∨ info.type = TBRNType.NORMAL_FILE)
      then
    some RejectReason.invalidTargetKind
  else if info.is_draft = false then
    some RejectReason.notInDraft
  else if info.type = TBRNType.SEGMENT then
    if is_recursive = false then
      some RejectReason.segmentRequiresRecursive
    else
      none
  else if strEndsWith info.remote_path "/" = true ∧ is_recursive = false then
    some RejectReason.directoryRequiresRecursive
  else
    none

/-- Modelled from the spec: the command front end around `_implement_rm`.
The Locator Parser is not among the sources under review; per the design
document a `MalformedLocator` failure is reported immediately as a single
diagnostic line and the process exits non-zero with no remote calls. The
parse outcome is passed in as an `Option TBRN`. -/
def run_rm (env : RemoteEnv) (parsed : Option TBRN) (tbrn : String)
    (is_recursive : Bool) : RmResult :=
  match parsed with
  | none =>
    { calls := [],
      errs := ["\"" ++ tbrn ++ "\" is not a legal TBRN"],
      outcome := RmOutcome.exited 1 }
  | some info => implement_rm env info tbrn is_recursive

/-- A remote environment with a single plain (non-fusion) dataset `ds1`
whose segments list no data paths. -/
def envDs1 : RemoteEnv :=
  { dataset_exists := fun name => name == "ds1",
    is_fusion_dataset := fun _ => false,
    list_data_paths := fun _ => [] }

/-- The locator `tb:ds1#1`: dataset kind, draft 1. -/
def dsRootDraft : TBRN :=
  { type := TBRNType.DATASET,
    dataset_name := "ds1",
    segment_name := "",
    remote_path := "",
    version := VersionInfo.draft 1 }

/-- A draft FUSION_FILE locator over the dataset `ds1`. -/
def fusionFileDraft : TBRN :=
  { type := TBRNType.FUSION_FILE,
    dataset_name := "ds1",
    segment_name := "seg1",
    remote_path := "a.jpg",
    version := VersionInfo.draft 1 }

/-- A FUSION_FILE locator over the dataset `ds1` pinned to revision `v2`. -/
def fusionFileRev : TBRN :=
  { type := TBRNType.FUSION_FILE,
    dataset_name := "ds1",
    segment_name := "seg1",
    remote_path := "a.jpg",
    version := VersionInfo.revision "v2" }

/-- A draft FUSION_FILE locator whose remote path is a directory. -/
def fusionDirDraft : TBRN :=
  { type := TBRNType.FUSION_FILE,
    dataset_name := "ds1",
    segment_name := "seg1",
    remote_path := "a/",
    version := VersionInfo.draft 1 }

/-- A draft SEGMENT locator over the dataset `ds1`. -/
def segDraft : TBRN :=
  { type := TBRNType.SEGMENT,
    dataset_name := "ds1",
    segment_name := "seg1",
    remote_path := "",
    version := VersionInfo.draft 1 }

/-- A SEGMENT locator over the dataset `ds1` pinned to revision `v2`. -/
def segRev : TBRN :=
  { type := TBRNType.SEGMENT,
    dataset_name := "ds1",
    segment_name := "seg1",
    remote_path := "",
    version := VersionInfo.revision "v2" }

/-- A draft NORMAL_FILE locator over the dataset `ds1`. -/
def fileDraft : TBRN :=
  { type := TBRNType.NORMAL_FILE,
    dataset_name := "ds1",
    segment_name := "seg1",
    remote_path := "a/1.jpg",
    version := VersionInfo.draft 1 }

/-- A draft NORMAL_FILE locator whose remote path is the directory `a/`. -/
def fileDirDraft : TBRN :=
  { type := TBRNType.NORMAL_FILE,
    dataset_name := "ds1",
    segment_name := "seg1",
    remote_path := "a/",
    version := VersionInfo.draft 1 }

/-- A remote environment whose only dataset `fds` is a fusion dataset. -/
def envFusion : RemoteEnv :=
  { dataset_exists := fun name => name == "fds",
    is_fusion_dataset := fun name => name == "fds",
    list_data_paths := fun _ => [] }

/-- A draft SEGMENT locator over the fusion dataset `fds`. -/
def fusionSegDraft : TBRN :=
  { type := TBRNType.SEGMENT,
    dataset_name := "fds",
    segment_name := "seg1",
    remote_path := "",
    version := VersionInfo.draft 1 }

/-- C1: counterexample — a rejected deletion request (dataset-kind locator,
draft qualifier, recursive flag) is decided only after the command has
already called the external client: the trace contains the dataset
resolution and the draft checkout, so the rejection is not reached with
zero network access. -/
theorem C1_counterexample :
    (implement_rm envDs1 dsRootDraft "tb:ds1#1" true).outcome
      = RmOutcome.exited 1
    ∧ (implement_rm envDs1 dsRootDraft "tb:ds1#1" true).errs
      = ["\"tb:ds1#1\" is an invalid path to remove"]
    ∧ (implement_rm envDs1 dsRootDraft "tb:ds1#1" true).calls
      = [ClientCall.getDataset "ds1" false, ClientCall.checkout_draft 1] := by
  exact ⟨by decide, by decide, by decide⟩

/-- C1 (amended): on every authorization rejection the command exits with
code 1 after printing exactly one diagnostic line, and the only
external-client calls in the trace are the dataset resolution and version
checkout performed before the guard chain; no listing call and no mutating
call is ever issued on a rejected request. -/
theorem C1_rejected_only_resolution_calls (env : RemoteEnv) (info : TBRN)
    (tbrn : String) (r : Bool) (reason : RejectReason)
    (hres : env.dataset_exists info.dataset_name = true)
    (hfus : env.is_fusion_dataset info.dataset_name = false)
    (hrej : rejection_of info r = some reason) :
    (implement_rm env info tbrn r).calls = get_dataset_client_calls info false
    ∧ (implement_rm env info tbrn r).outcome = RmOutcome.exited 1
    ∧ (implement_rm env info tbrn r).errs.length = 1 := by
  unfold implement_rm
  unfold rejection_of at hrej
  rw [if_neg (by simp [hres, hfus])]
  by_cases h1 : ¬ (info.type = TBRNType.SEGMENT ∨ info.type = TBRNType.NORMAL_FILE)
  · rw [if_pos h1]
    exact ⟨rfl, rfl, rfl⟩
  · rw [if_neg h1]
    rw [if_neg h1] at hrej
    by_cases h2 : info.is_draft = false
    · rw [if_pos h2]
      exact ⟨rfl, rfl, rfl⟩
    · rw [if_neg h2]
      rw [if_neg h2] at hrej
      by_cases h3 : info.type = TBRNType.SEGMENT
      · rw [if_pos h3]
        rw [if_pos h3] at hrej
        by_cases h4 : r = false
        · rw [if_pos h4]
          exact ⟨rfl, rfl, rfl⟩
        · rw [if_neg h4] at hrej
          exact absurd hrej (by simp)
      · rw [if_neg h3]
        rw [if_neg h3] at hrej
        by_cases h5 : strEndsWith info.remote_path "/" = true ∧ r = false
        · rw [if_pos h5]
          exact ⟨rfl, rfl, rfl⟩
        · rw [if_neg h5] at hrej
          exact absurd hrej (by simp)

/-- C1 (witness): the amended statement instantiated at the dataset-kind
draft locator `tb:ds1#1` with the recursive flag set. -/
theorem C1_rejected_only_resolution_calls_witness :
    envDs1.dataset_exists dsRootDraft.dataset_name = true
    ∧ envDs1.is_fusion_dataset dsRootDraft.dataset_name = false
    ∧ rejection_of dsRootDraft true = some RejectReason.invalidTargetKind
    ∧ ((implement_rm envDs1 dsRootDraft "tb:ds1#1" true).calls
        = get_dataset_client_calls dsRootDraft false
      ∧ (implement_rm envDs1 dsRootDraft "tb:ds1#1" true).outcome
        = RmOutcome.exited 1
      ∧ (implement_rm envDs1 dsRootDraft "tb:ds1#1" true).errs.length = 1) :=
  ⟨by decide, by decide, by decide,
    C1_rejected_only_resolution_calls envDs1 dsRootDraft "tb:ds1#1" true
      RejectReason.invalidTargetKind (by decide) (by decide) (by decide)⟩

/-- C2: for every locator whose kind is neither SEGMENT nor a file kind,
the first guard wins regardless of the version qualifier and the recursive
flag: the decision is the InvalidTargetKind rejection and the command
prints exactly its diagnostic and exits 1, issuing no call beyond the
resolution made before validation. -/
theorem C2_invalid_kind_first_rule (env : RemoteEnv) (info : TBRN)
    (tbrn : String) (r : Bool)
    (hres : env.dataset_exists info.dataset_name = true)
    (hfus : env.is_fusion_dataset info.dataset_name = false)
    (hkind : info.type ≠ TBRNType.SEGMENT ∧ info.type ≠ TBRNType.NORMAL_FILE
      ∧ info.type ≠ TBRNType.FUSION_FILE) :
    rejection_of info r = some RejectReason.invalidTargetKind
    ∧ implement_rm env info tbrn r =
      { calls := get_dataset_client_calls info false,
        errs := ["\"" ++ tbrn ++ "\" is an invalid path to remove"],
        outcome := RmOutcome.exited 1 } := by
  have h1 : ¬ (info.type = TBRNType.SEGMENT ∨ info.type = TBRNType.NORMAL_FILE) := by
    rintro (h | h)
    · exact hkind.1 h
    · exact hkind.2.1 h
  constructor
  · unfold rejection_of
    rw [if_pos h1]
  · unfold implement_rm
    rw [if_neg (by simp [hres, hfus]), if_pos h1]

/-- C2 (witness): the statement instantiated at the dataset-kind draft
locator `tb:ds1#1` with the recursive flag set. -/
theorem C2_invalid_kind_first_rule_witness :
    envDs1.dataset_exists dsRootDraft.dataset_name = true
    ∧ envDs1.is_fusion_dataset dsRootDraft.dataset_name = false
    ∧ (dsRootDraft.type ≠ TBRNType.SEGMENT
      ∧ dsRootDraft.type ≠ TBRNType.NORMAL_FILE
      ∧ dsRootDraft.type ≠ TBRNType.FUSION_FILE)
    ∧ (rejection_of dsRootDraft true = some RejectReason.invalidTargetKind
      ∧ implement_rm envDs1 dsRootDraft "tb:ds1#1" true =
        { calls := get_dataset_client_calls dsRootDraft false,
          errs := ["\"" ++ "tb:ds1#1" ++ "\" is an invalid path to remove"],
          outcome := RmOutcome.exited 1 }) :=
  ⟨by decide, by decide, by decide,
    C2_invalid_kind_first_rule envDs1 dsRootDraft "tb:ds1#1" true
      (by decide) (by decide) (by decide)⟩

/-- C3: counterexample — a FUSION_FILE locator is a file-kind locator,
yet the first guard rejects it as an invalid path to remove: the guard in
`rm.py` admits only SEGMENT and NORMAL_FILE, so not every file-kind
locator passes the first rule. -/
theorem C3_counterexample :
    fusionFileDraft.type.isFileKind = true
    ∧ rejection_of fusionFileDraft true
      = some RejectReason.invalidTargetKind
    ∧ (implement_rm envDs1 fusionFileDraft "tb:ds1:seg1/a.jpg#1" true).errs
      = ["\"tb:ds1:seg1/a.jpg#1\" is an invalid path to remove"] := by
  exact ⟨by decide, by decide, by decide⟩

/-- C3 (amended): the first guard rejects a request as InvalidTargetKind
(with the diagnostic quoting the raw locator string) iff the locator's
kind is neither SEGMENT nor NORMAL_FILE; in particular every FUSION_FILE
locator is rejected by this first rule, and every SEGMENT-kind and
NORMAL_FILE-kind locator passes it. -/
theorem C3_invalid_kind_iff (env : RemoteEnv) (info : TBRN)
    (tbrn : String) (r : Bool)
    (hres : env.dataset_exists info.dataset_name = true)
    (hfus : env.is_fusion_dataset info.dataset_name = false) :
    (rejection_of info r = some RejectReason.invalidTargetKind
      ↔ (info.type ≠ TBRNType.SEGMENT ∧ info.type ≠ TBRNType.NORMAL_FILE))
    ∧ (info.type ≠ TBRNType.SEGMENT ∧ info.type ≠ TBRNType.NORMAL_FILE →
      (implement_rm env info tbrn r).errs
        = ["\"" ++ tbrn ++ "\" is an invalid path to remove"]) := by
  constructor
  · unfold rejection_of
    by_cases h1 : ¬ (info.type = TBRNType.SEGMENT ∨ info.type = TBRNType.NORMAL_FILE)
    · rw [if_pos h1]
      simp only [Option.some.injEq, true_iff]
      exact ⟨fun h => h1 (Or.inl h), fun h => h1 (Or.inr h)⟩
    · rw [if_neg h1]
      constructor
      · intro hrej
        exfalso
        revert hrej
        by_cases h2 : info.is_draft = false
        · rw [if_pos h2]
          simp
        · rw [if_neg h2]
          by_cases h3 : info.type = TBRNType.SEGMENT
          · rw [if_pos h3]
            by_cases h4 : r = false
            · rw [if_pos h4]
              simp
            · rw [if_neg h4]
              simp
          · rw [if_neg h3]
            by_cases h5 : strEndsWith info.remote_path "/" = true ∧ r = false
            · rw [if_pos h5]
              simp
            · rw [if_neg h5]
              simp
      · intro hk
        exact absurd (fun h => h.elim hk.1 hk.2) h1
  · intro hk
    have h1 : ¬ (info.type = TBRNType.SEGMENT ∨ info.type = TBRNType.NORMAL_FILE) :=
      fun h => h.elim hk.1 hk.2
    unfold implement_rm
    rw [if_neg (by simp [hres, hfus]), if_pos h1]

/-- C3 (witness): the amended statement instantiated at a draft
FUSION_FILE locator over the non-fusion dataset `ds1`. -/
theorem C3_invalid_kind_iff_witness :
    envDs1.dataset_exists fusionFileDraft.dataset_name = true
    ∧ envDs1.is_fusion_dataset fusionFileDraft.dataset_name = false
    ∧ ((rejection_of fusionFileDraft true
        = some RejectReason.invalidTargetKind
      ↔ (fusionFileDraft.type ≠ TBRNType.SEGMENT
        ∧ fusionFileDraft.type ≠ TBRNType.NORMAL_FILE))
      ∧ (fusionFileDraft.type ≠ TBRNType.SEGMENT
        ∧ fusionFileDraft.type ≠ TBRNType.NORMAL_FILE →
        (implement_rm envDs1 fusionFileDraft "tb:ds1:seg1/a.jpg#1" true).errs
          = ["\"" ++ "tb:ds1:seg1/a.jpg#1"
              ++ "\" is an invalid path to remove"])) :=
  ⟨by decide, by decide,
    C3_invalid_kind_iff envDs1 fusionFileDraft "tb:ds1:seg1/a.jpg#1" true
      (by decide) (by decide)⟩

/-- C4: counterexample — a FUSION_FILE locator pinned to a revision is a
non-draft file-kind locator, yet the command rejects it by the first rule
with the invalid-path diagnostic, not with the NotInDraft rejection and
its draft-status message. -/
theorem C4_counterexample :
    fusionFileRev.type.isFileKind = true
    ∧ fusionFileRev.is_draft = false
    ∧ rejection_of fusionFileRev true ≠ some RejectReason.notInDraft
    ∧ (implement_rm envDs1 fusionFileRev "tb:ds1:seg1/a.jpg#v2" true).errs
      ≠ ["To remove the data, \"" ++ fusionFileRev.toTbrnString
          ++ "\" must be in draft status, like \""
          ++ fusionFileRev.toTbrnString ++ "#1\""] := by
  exact ⟨by decide, by decide, by decide, by decide⟩

/-- C4 (amended): for every locator of SEGMENT or NORMAL_FILE kind whose
version qualifier is not the Draft case, regardless of the recursive flag,
the command rejects the request as NotInDraft and prints exactly
`To remove the data, "<locator>" must be in draft status, like
"<locator>#1"` where `<locator>` is the locator's canonical string form,
then exits 1 without further client calls. -/
theorem C4_not_in_draft (env : RemoteEnv) (info : TBRN)
    (tbrn : String) (r : Bool)
    (hres : env.dataset_exists info.dataset_name = true)
    (hfus : env.is_fusion_dataset info.dataset_name = false)
    (hkind : info.type = TBRNType.SEGMENT ∨ info.type = TBRNType.NORMAL_FILE)
    (hdraft : info.is_draft = false) :
    rejection_of info r = some RejectReason.notInDraft
    ∧ implement_rm env info tbrn r =
      { calls := get_dataset_client_calls info false,
        errs := ["To remove the data, \"" ++ info.toTbrnString
          ++ "\" must be in draft status, like \"" ++ info.toTbrnString
          ++ "#1\""],
        outcome := RmOutcome.exited 1 } := by
  constructor
  · unfold rejection_of
    rw [if_neg (not_not_intro hkind), if_pos hdraft]
  · unfold implement_rm
    rw [if_neg (by simp [hres, hfus]), if_neg (not_not_intro hkind),
      if_pos hdraft]

/-- C4 (witness): the amended statement instantiated at the SEGMENT-kind
locator `tb:ds1:seg1#v2` pinned to revision `v2`. -/
theorem C4_not_in_draft_witness :
    envDs1.dataset_exists segRev.dataset_name = true
    ∧ envDs1.is_fusion_dataset segRev.dataset_name = false
    ∧ (segRev.type = TBRNType.SEGMENT ∨ segRev.type = TBRNType.NORMAL_FILE)
    ∧ segRev.is_draft = false
    ∧ (rejection_of segRev true = some RejectReason.notInDraft
      ∧ implement_rm envDs1 segRev "tb:ds1:seg1#v2" true =
        { calls := get_dataset_client_calls segRev false,
          errs := ["To remove the data, \"" ++ segRev.toTbrnString
            ++ "\" must be in draft status, like \"" ++ segRev.toTbrnString
            ++ "#1\""],
          outcome := RmOutcome.exited 1 }) :=
  ⟨by decide, by decide, by decide, by decide,
    C4_not_in_draft envDs1 segRev "tb:ds1:seg1#v2" true
      (by decide) (by decide) (by decide) (by decide)⟩

/-- C5: for every draft SEGMENT-kind locator, the non-recursive request is
rejected with the whole-segment diagnostic and no delete is issued, while
the recursive request issues exactly one segment-delete call, after the
dataset resolution and the draft checkout, with the locator's segment
name. -/
theorem C5_segment_deletion (env : RemoteEnv) (info : TBRN)
    (tbrn : String) (n : Nat)
    (hres : env.dataset_exists info.dataset_name = true)
    (hfus : env.is_fusion_dataset info.dataset_name = false)
    (htype : info.type = TBRNType.SEGMENT)
    (hver : info.version = VersionInfo.draft n) :
    implement_rm env info tbrn false =
      { calls := [ClientCall.getDataset info.dataset_name false,
                  ClientCall.checkout_draft n],
        errs := ["Please use -r option to remove the whole segment"],
        outcome := RmOutcome.exited 1 }
    ∧ implement_rm env info tbrn true =
      { calls := [ClientCall.getDataset info.dataset_name false,
                  ClientCall.checkout_draft n,
                  ClientCall.delete_segment info.segment_name],
        errs := [],
        outcome := RmOutcome.success } := by
  have hdraft : info.is_draft = true := by
    simp [TBRN.is_draft, hver]
  have hrc : get_dataset_client_calls info false =
      [ClientCall.getDataset info.dataset_name false,
        ClientCall.checkout_draft n] := by
    simp [get_dataset_client_calls, hdraft, hver]
  constructor
  · unfold implement_rm
    rw [if_neg (by simp [hres, hfus]), if_neg (not_not_intro (Or.inl htype)),
      if_neg (by simp [hdraft]), if_pos htype, if_pos rfl, hrc]
  · unfold implement_rm
    rw [if_neg (by simp [hres, hfus]), if_neg (not_not_intro (Or.inl htype)),
      if_neg (by simp [hdraft]), if_pos htype, if_neg (by simp), hrc]
    simp

/-- C5 (witness): the statement instantiated at the draft SEGMENT locator
`tb:ds1:seg1#1`. -/
theorem C5_segment_deletion_witness :
    envDs1.dataset_exists segDraft.dataset_name = true
    ∧ envDs1.is_fusion_dataset segDraft.dataset_name = false
    ∧ segDraft.type = TBRNType.SEGMENT
    ∧ segDraft.version = VersionInfo.draft 1
    ∧ (implement_rm envDs1 segDraft "tb:ds1:seg1#1" false =
      { calls := [ClientCall.getDataset segDraft.dataset_name false,
                  ClientCall.checkout_draft 1],
        errs := ["Please use -r option to remove the whole segment"],
        outcome := RmOutcome.exited 1 }
    ∧ implement_rm envDs1 segDraft "tb:ds1:seg1#1" true =
      { calls := [ClientCall.getDataset segDraft.dataset_name false,
                  ClientCall.checkout_draft 1,
                  ClientCall.delete_segment segDraft.segment_name],
        errs := [],
        outcome := RmOutcome.success }) :=
  ⟨by decide, by decide, by decide, by decide,
    C5_segment_deletion envDs1 segDraft "tb:ds1:seg1#1" 1
      (by decide) (by decide) (by decide) (by decide)⟩

/-- C6: counterexample — a draft FUSION_FILE locator whose remote path
ends with a slash is, with the recursive flag unset, rejected by the first
rule with the invalid-path diagnostic, not with the
DirectoryRequiresRecursive rejection and its diagnostic. -/
theorem C6_counterexample :
    fusionDirDraft.type.isFileKind = true
    ∧ fusionDirDraft.is_draft = true
    ∧ strEndsWith fusionDirDraft.remote_path "/" = true
    ∧ rejection_of fusionDirDraft false
      = some RejectReason.invalidTargetKind
    ∧ (implement_rm envDs1 fusionDirDraft "tb:ds1:seg1/a/#1" false).errs
      ≠ ["Please use -r option to remove recursively"] := by
  exact ⟨by decide, by decide, by decide, by decide, by decide⟩

/-- C6 (amended): for every draft NORMAL_FILE-kind locator whose remote
path ends with `/`, the non-recursive request is rejected with the
diagnostic `Please use -r option to remove recursively` and exits 1; the
trace holds only the dataset resolution and draft checkout, so no listing
call and no delete call is made. -/
theorem C6_directory_requires_recursive (env : RemoteEnv) (info : TBRN)
    (tbrn : String) (n : Nat)
    (hres : env.dataset_exists info.dataset_name = true)
    (hfus : env.is_fusion_dataset info.dataset_name = false)
    (htype : info.type = TBRNType.NORMAL_FILE)
    (hver : info.version = VersionInfo.draft n)
    (hdir : strEndsWith info.remote_path "/" = true) :
    implement_rm env info tbrn false =
      { calls := [ClientCall.getDataset info.dataset_name false,
                  ClientCall.checkout_draft n],
        errs := ["Please use -r option to remove recursively"],
        outcome := RmOutcome.exited 1 } := by
  have hdraft : info.is_draft = true := by
    simp [TBRN.is_draft, hver]
  have hrc : get_dataset_client_calls info false =
      [ClientCall.getDataset info.dataset_name false,
        ClientCall.checkout_draft n] := by
    simp [get_dataset_client_calls, hdraft, hver]
  unfold implement_rm
  rw [if_neg (by simp [hres, hfus]), if_neg (not_not_intro (Or.inr htype)),
    if_neg (by simp [hdraft]), if_neg (by simp [htype]),
    if_pos ⟨hdir, rfl⟩, hrc]

/-- C6 (witness): the amended statement instantiated at the draft
NORMAL_FILE locator `tb:ds1:seg1/a/#1` addressing the directory `a/`. -/
theorem C6_directory_requires_recursive_witness :
    envDs1.dataset_exists fileDirDraft.dataset_name = true
    ∧ envDs1.is_fusion_dataset fileDirDraft.dataset_name = false
    ∧ fileDirDraft.type = TBRNType.NORMAL_FILE
    ∧ fileDirDraft.version = VersionInfo.draft 1
    ∧ strEndsWith fileDirDraft.remote_path "/" = true
    ∧ implement_rm envDs1 fileDirDraft "tb:ds1:seg1/a/#1" false =
      { calls := [ClientCall.getDataset fileDirDraft.dataset_name false,
                  ClientCall.checkout_draft 1],
        errs := ["Please use -r option to remove recursively"],
        outcome := RmOutcome.exited 1 } :=
  ⟨by decide, by decide, by decide, by decide, by decide,
    C6_directory_requires_recursive envDs1 fileDirDraft "tb:ds1:seg1/a/#1" 1
      (by decide) (by decide) (by decide) (by decide) (by decide)⟩

/-- C7: the Path Filter is a pure function of the listing, the requested
path and the recursive flag: non-recursively it yields the singleton of
the requested path when present verbatim in the listing and the empty
list otherwise; recursively it keeps exactly the listed paths having the
requested path as a literal string prefix, as on the example listing
`a/1.jpg, a/2.jpg, b/1.jpg` with requested path `a/`. -/
theorem C7_filter_data_semantics :
    (∀ l p, filter_data l p false = if l.contains p then [p] else [])
    ∧ (∀ l p x, x ∈ filter_data l p true ↔ x ∈ l ∧ strStartsWith x p = true)
    ∧ filter_data ["a/1.jpg", "a/2.jpg", "b/1.jpg"] "a/" true
        = ["a/1.jpg", "a/2.jpg"]
    ∧ filter_data ["a/1.jpg", "a/2.jpg", "b/1.jpg"] "a/1.jpg" false
        = ["a/1.jpg"]
    ∧ filter_data ["a/1.jpg", "a/2.jpg", "b/1.jpg"] "a/3.jpg" false
        = [] := by
  refine ⟨fun l p => by simp [filter_data], fun l p x => ?_,
    by decide, by decide, by decide⟩
  simp [filter_data, List.mem_filter]

/-- C8: for every authorized file-level deletion (draft NORMAL_FILE
locator, not a directory path with the recursive flag unset): when the
filtered set is empty no delete call is issued, the command prints
`No such file or directory "<locator>" ` when recursive was requested and
`No such file "<locator>" ` when it was not, and exits 1; the batched
delete is issued exactly when the filtered set is non-empty, with that
exact set. -/
theorem C8_empty_set_never_deletes (env : RemoteEnv) (info : TBRN)
    (tbrn : String) (r : Bool) (n : Nat)
    (hres : env.dataset_exists info.dataset_name = true)
    (hfus : env.is_fusion_dataset info.dataset_name = false)
    (htype : info.type = TBRNType.NORMAL_FILE)
    (hver : info.version = VersionInfo.draft n)
    (hnd : ¬ (strEndsWith info.remote_path "/" = true ∧ r = false)) :
    (filter_data (env.list_data_paths info.segment_name)
        info.remote_path r = [] →
      implement_rm env info tbrn r =
        { calls := [ClientCall.getDataset info.dataset_name false,
                    ClientCall.checkout_draft n,
                    ClientCall.get_segment info.segment_name,
                    ClientCall.listDataPaths info.segment_name],
          errs := [(if r then "No such file or directory \""
              else "No such file \"") ++ tbrn ++ "\" "],
          outcome := RmOutcome.exited 1 })
    ∧ (filter_data (env.list_data_paths info.segment_name)
        info.remote_path r ≠ [] →
      implement_rm env info tbrn r =
        { calls := [ClientCall.getDataset info.dataset_name false,
                    ClientCall.checkout_draft n,
                    ClientCall.get_segment info.segment_name,
                    ClientCall.listDataPaths info.segment_name,
                    ClientCall.delete_data info.segment_name
                      (filter_data (env.list_data_paths info.segment_name)
                        info.remote_path r)],
          errs := [],
          outcome := RmOutcome.success }) := by
  have hdraft : info.is_draft = true := by
    simp [TBRN.is_draft, hver]
  have hrc : get_dataset_client_calls info false =
      [ClientCall.getDataset info.dataset_name false,
        ClientCall.checkout_draft n] := by
    simp [get_dataset_client_calls, hdraft, hver]
  constructor
  · intro hempty
    unfold implement_rm
    rw [if_neg (by simp [hres, hfus]), if_neg (not_not_intro (Or.inr htype)),
      if_neg (by simp [hdraft]), if_neg (by simp [htype]), if_neg hnd,
      if_pos hempty, hrc]
    simp
  · intro hne
    unfold implement_rm
    rw [if_neg (by simp [hres, hfus]), if_neg (not_not_intro (Or.inr htype)),
      if_neg (by simp [hdraft]), if_neg (by simp [htype]), if_neg hnd,
      if_neg hne, hrc]
    simp

/-- C8 (witness): the statement instantiated at the draft NORMAL_FILE
locator `tb:ds1:seg1/a/1.jpg#1` over the environment whose listing is
empty, with the recursive flag unset. -/
theorem C8_empty_set_never_deletes_witness :
    envDs1.dataset_exists fileDraft.dataset_name = true
    ∧ envDs1.is_fusion_dataset fileDraft.dataset_name = false
    ∧ fileDraft.type = TBRNType.NORMAL_FILE
    ∧ fileDraft.version = VersionInfo.draft 1
    ∧ ¬ (strEndsWith fileDraft.remote_path "/" = true ∧ false = false)
    ∧ ((filter_data (envDs1.list_data_paths fileDraft.segment_name)
        fileDraft.remote_path false = [] →
      implement_rm envDs1 fileDraft "tb:ds1:seg1/a/1.jpg#1" false =
        { calls := [ClientCall.getDataset fileDraft.dataset_name false,
                    ClientCall.checkout_draft 1,
                    ClientCall.get_segment fileDraft.segment_name,
                    ClientCall.listDataPaths fileDraft.segment_name],
          errs := [(if false then "No such file or directory \""
              else "No such file \"") ++ "tb:ds1:seg1/a/1.jpg#1" ++ "\" "],
          outcome := RmOutcome.exited 1 })
    ∧ (filter_data (envDs1.list_data_paths fileDraft.segment_name)
        fileDraft.remote_path false ≠ [] →
      implement_rm envDs1 fileDraft "tb:ds1:seg1/a/1.jpg#1" false =
        { calls := [ClientCall.getDataset fileDraft.dataset_name false,
                    ClientCall.checkout_draft 1,
                    ClientCall.get_segment fileDraft.segment_name,
                    ClientCall.listDataPaths fileDraft.segment_name,
                    ClientCall.delete_data fileDraft.segment_name
                      (filter_data
                        (envDs1.list_data_paths fileDraft.segment_name)
                        fileDraft.remote_path false)],
          errs := [],
          outcome := RmOutcome.success })) :=
  ⟨by decide, by decide, by decide, by decide, by decide,
    C8_empty_set_never_deletes envDs1 fileDraft "tb:ds1:seg1/a/1.jpg#1"
      false 1 (by decide) (by decide) (by decide) (by decide) (by decide)⟩

/-- C9: for every invocation of the command, an explicit termination by
`sys.exit` always carries exit code 1 and is preceded by exactly one
diagnostic line on the error stream — this covers every authorization
rejection, the parse failure of the front end, and the empty-result
outcome — while a successful (exit code 0) run prints nothing to the
error stream. -/
theorem C9_exit_discipline (env : RemoteEnv) (parsed : Option TBRN)
    (tbrn : String) (r : Bool) :
    (∀ c, (run_rm env parsed tbrn r).outcome = RmOutcome.exited c →
      c = 1 ∧ (run_rm env parsed tbrn r).errs.length = 1)
    ∧ ((run_rm env parsed tbrn r).outcome = RmOutcome.success →
      (run_rm env parsed tbrn r).errs = []) := by
  cases parsed with
  | none => simp [run_rm]
  | some info =>
    simp only [run_rm]
    unfold implement_rm
    split_ifs <;> simp

/-- C10: the command always resolves the dataset with `is_fusion=False` —
in every environment the first client call is that resolution — and for
every locator naming a fusion dataset the invocation fails during dataset
resolution: no validation diagnostic is printed, no checkout, listing or
delete call is made, and the process does not reach the guard chain. -/
theorem C10_fusion_fails_resolution (env : RemoteEnv) (info : TBRN)
    (tbrn : String) (r : Bool)
    (hfus : env.is_fusion_dataset info.dataset_name = true) :
    (∀ env2 : RemoteEnv, (implement_rm env2 info tbrn r).calls.head? =
      some (ClientCall.getDataset info.dataset_name false))
    ∧ implement_rm env info tbrn r =
      { calls := [ClientCall.getDataset info.dataset_name false],
        errs := [],
        outcome := RmOutcome.resolutionFailure } := by
  constructor
  · intro env2
    unfold implement_rm
    split_ifs <;> simp [get_dataset_client_calls]
  · unfold implement_rm
    rw [if_pos (Or.inr hfus)]

/-- C10 (witness): the statement instantiated at the draft SEGMENT locator
`tb:fds:seg1#1` over an environment whose dataset `fds` is a fusion
dataset. -/
theorem C10_fusion_fails_resolution_witness :
    envFusion.is_fusion_dataset fusionSegDraft.dataset_name = true
    ∧ ((∀ env2 : RemoteEnv,
        (implement_rm env2 fusionSegDraft "tb:fds:seg1#1" true).calls.head? =
          some (ClientCall.getDataset fusionSegDraft.dataset_name false))
      ∧ implement_rm envFusion fusionSegDraft "tb:fds:seg1#1" true =
        { calls := [ClientCall.getDataset fusionSegDraft.dataset_name false],
          errs := [],
          outcome := RmOutcome.resolutionFailure }) :=
  ⟨by decide,
    C10_fusion_fails_resolution envFusion fusionSegDraft "tb:fds:seg1#1" true
      (by decide)⟩

end TensorbayRm
